import Mathlib

/-!
Shallow embedding of `ghcn_tools.py`, a parser for GHCN-daily fixed-width
climate files, together with theorems about its field extraction, daily
loading, postprocessing and wide-to-long reshape.

Modelling conventions:
* Python strings are Lean `String`s; `s[a:b]` is `strSlice`, `str.lower()`
  is `pyLower` (ASCII case mapping; GHCN files are ASCII).
* Python floats are modelled as exact rationals `ℚ`; `float('nan')` (used
  as the missing-value marker `np.nan`) is modelled by `none` in
  `Option ℚ`.
* A Python exception (uncaught `ValueError` from `int(...)`/`float(...)`,
  or `IllegalMonthError` from `calendar.monthrange`) is modelled by `none`
  of an outer `Option`: a function that can raise returns `Option _`, and
  callers propagate `none` exactly where Python would let the exception
  escape.
* `parseInt?`/`parseFloat?` model CPython `int(str)`/`float(str)` on the
  decimal forms that can occur in fixed-width numeric data: optional
  surrounding whitespace, optional sign, digits, and for floats an
  optional fractional part and exponent.  (Underscore digit separators and
  the `inf`/`nan` spellings are outside the model.)
-/

/-- ASCII whitespace stripped by Python `int`/`float`/`str.strip`. -/
def isPyWs (c : Char) : Bool :=
  c == ' ' || c == '\t' || c == '\n' || c == '\r' || c == Char.ofNat 11 || c == Char.ofNat 12

/-- Strip leading and trailing whitespace from a character list. -/
def stripWsList (cs : List Char) : List Char :=
  ((cs.dropWhile isPyWs).reverse.dropWhile isPyWs).reverse

/-- Python `s[a:b]` for `0 ≤ a ≤ b`: the characters at indices `[a, min b (len s))`. -/
def strSlice (s : String) (a b : ℕ) : String :=
  String.mk ((s.toList.drop a).take (b - a))

/-- Python `str.lower()` restricted to ASCII letters. -/
def pyLower (s : String) : String :=
  String.mk (s.toList.map fun c => if 'A' ≤ c ∧ c ≤ 'Z' then Char.ofNat (c.toNat + 32) else c)

/-- Python `str.strip()` (whitespace only), used to state the spec's reading of `trimmer`. -/
def pyStrip (s : String) : String :=
  String.mk (stripWsList s.toList)

/-- Value of a digit list read in base 10. -/
def natOfDigits (cs : List Char) : ℕ :=
  cs.foldl (fun n c => 10 * n + (c.toNat - 48)) 0

/-- Split an optional leading sign; `true` means negative. -/
def splitSign : List Char → Bool × List Char
  | '+' :: cs => (false, cs)
  | '-' :: cs => (true, cs)
  | cs => (false, cs)

/-- CPython `int(s)`: strip whitespace, optional sign, one or more digits; anything else raises. -/
def parseInt? (s : String) : Option ℤ :=
  let sp := splitSign (stripWsList s.toList)
  if sp.2.isEmpty then none
  else if sp.2.all Char.isDigit then
    some (if sp.1 then -(natOfDigits sp.2 : ℤ) else (natOfDigits sp.2 : ℤ))
  else none

/-- Exponent part of a float literal (after the `e`): optional sign then digits. -/
def parseExpPart : List Char → Option ℤ := fun cs =>
  let sp := splitSign cs
  if sp.2.isEmpty then none
  else if sp.2.all Char.isDigit then
    some (if sp.1 then -(natOfDigits sp.2 : ℤ) else (natOfDigits sp.2 : ℤ))
  else none

/-- CPython `float(s)` on decimal literals: strip whitespace, optional sign,
`digits [. digits]` with at least one digit, optional `e`/`E` exponent; anything
else raises.  The value is exact (`ℚ`), abstracting from binary rounding. -/
def parseFloat? (s : String) : Option ℚ :=
  let sp := splitSign (stripWsList s.toList)
  let ip := sp.2.takeWhile Char.isDigit
  let rest1 := sp.2.dropWhile Char.isDigit
  let mant : Option (ℚ × List Char) :=
    match rest1 with
    | '.' :: rest2 =>
      let fp := rest2.takeWhile Char.isDigit
      let rest3 := rest2.dropWhile Char.isDigit
      if ip.isEmpty && fp.isEmpty then none
      else some ((natOfDigits ip : ℚ) + (natOfDigits fp : ℚ) / (10 : ℚ) ^ fp.length, rest3)
    | _ => if ip.isEmpty then none else some ((natOfDigits ip : ℚ), rest1)
  match mant with
  | none => none
  | some (m, rest) =>
    let signed : ℚ := if sp.1 then -m else m
    match rest with
    | [] => some signed
    | 'e' :: ecs => (parseExpPart ecs).map fun ex => signed * (10 : ℚ) ^ ex
    | 'E' :: ecs => (parseExpPart ecs).map fun ex => signed * (10 : ℚ) ^ ex
    | _ => none

/-- `trimmer(string, start_idx, end_idx)`: `str(string[start_idx:end_idx]).lower()`. -/
def trimmer (string : String) (start_idx end_idx : ℕ) : String :=
  pyLower (strSlice string start_idx end_idx)

/-- `to_int(string, start_idx, end_idx)`: `int(trimmer(...))`; `none` is the raised `ValueError`. -/
def to_int (string : String) (start_idx end_idx : ℕ) : Option ℤ :=
  parseInt? (trimmer string start_idx end_idx)

/-- `to_float(string, start_idx, end_idx)`: `float(trimmer(...))`; `none` is the raised `ValueError`. -/
def to_float (string : String) (start_idx end_idx : ℕ) : Option ℚ :=
  parseFloat? (trimmer string start_idx end_idx)

/-- The three field type tags `'str' | 'float' | 'int'` keying `FALSE_VALUES`/`CONVERSIONS`. -/
inductive FType
  | str
  | float
  | int
deriving DecidableEq, Repr

/-- A cell of the station-metadata table: string, float (with `none` = NaN) or integer. -/
inductive GVal
  | s (v : String)
  | f (v : Option ℚ)
  | i (v : ℤ)
deriving DecidableEq, Repr

/-- `FALSE_VALUES = {'str': "", 'float': np.nan, 'int': 0}`. -/
def FALSE_VALUES : FType → GVal
  | .str => GVal.s ""
  | .float => GVal.f none
  | .int => GVal.i 0

/-- `CONVERSIONS = {'str': trimmer, 'float': to_float, 'int': to_int}`, applied to
`(line, start, end)`; `none` is an uncaught conversion exception. -/
def CONVERSIONS : FType → String → ℕ → ℕ → Option GVal
  | .str, line, a, b => some (GVal.s (trimmer line a b))
  | .float, line, a, b => (to_float line a b).map fun q => GVal.f (some q)
  | .int, line, a, b => (to_int line a b).map GVal.i

/-- `mapOpt f l` is the list built by running `f` over `l`, aborting at the first
exception (`none`) — the loop/comprehension pattern of the Python source. -/
def mapOpt {α β : Type} (f : α → Option β) : List α → Option (List β)
  | [] => some []
  | a :: as => (f a).bind fun b => (mapOpt f as).map fun bs => b :: bs

/-- `foldOpt f init l` folds `f` over `l`, aborting at the first exception. -/
def foldOpt {σ α : Type} (f : σ → α → Option σ) : σ → List α → Option σ
  | acc, [] => some acc
  | acc, a :: as => (f acc a).bind fun acc2 => foldOpt f acc2 as

/-- The body of `load_ghcn_meta`'s inner loop: `if end < length:
new_data.append(CONVERSIONS[typ](line, start, end)) else:
new_data.append(FALSE_VALUES[typ])`. -/
def extract_field (typ : FType) (line : String) (start_idx end_idx : ℕ) : Option GVal :=
  if end_idx < line.length then CONVERSIONS typ line start_idx end_idx
  else some (FALSE_VALUES typ)

/-- Column names of the station-metadata table (`data[0]`). -/
def metaNames : List String :=
  ["id", "lat", "lon", "elev", "state", "name", "gsn_flag", "hcn_flag", "wmo_id"]

/-- `start_idxs` of `load_ghcn_meta`. -/
def metaStarts : List ℕ := [0, 12, 21, 31, 38, 41, 72, 76, 80]

/-- `end_idxs` of `load_ghcn_meta`. -/
def metaEnds : List ℕ := [11, 20, 30, 37, 40, 71, 75, 79, 85]

/-- `types` of `load_ghcn_meta`. -/
def metaTypes : List FType :=
  [.str, .float, .float, .float, .str, .str, .str, .str, .int]

/-- `zip(types, start_idxs, end_idxs)` as iterated in `load_ghcn_meta`. -/
def metaSchema : List (FType × ℕ × ℕ) :=
  metaTypes.zip (metaStarts.zip metaEnds)

/-- One iteration of `load_ghcn_meta`'s outer loop: the `new_data` row built
for one input line (`none` = an uncaught conversion exception on that line). -/
def parse_meta_line (line : String) : Option (List GVal) :=
  mapOpt (fun e => extract_field e.1 line e.2.1 e.2.2) metaSchema

/-- `load_ghcn_meta`: one row per input line, header `metaNames`; `none` means the
load raised and returned nothing. -/
def load_ghcn_meta (lines : List String) : Option (List String × List (List GVal)) :=
  (mapOpt parse_meta_line lines).map fun rows => (metaNames, rows)

/-- `load_year(line) = to_int(line, 11, 15)`. -/
def load_year (line : String) : Option ℤ := to_int line 11 15

/-- `load_month(line) = to_int(line, 15, 17)`. -/
def load_month (line : String) : Option ℤ := to_int line 15 17

/-- `WEATHER_TYPE_LOOKUP`: the module-level weather-type code table (note: no `wt20`). -/
def WEATHER_TYPE_LOOKUP : List (String × String) :=
  [("wt01", "wt_fog"),
   ("wt02", "wt_heavy_fog"),
   ("wt03", "wt_thunder"),
   ("wt04", "wt_ice"),
   ("wt05", "wt_hail"),
   ("wt06", "wt_rime"),
   ("wt07", "wt_dust_sand"),
   ("wt08", "wt_smoke"),
   ("wt09", "wt_blowing_snow"),
   ("wt10", "wt_tornado"),
   ("wt11", "wt_high_wind"),
   ("wt12", "wt_blowing_spray"),
   ("wt13", "wt_mist"),
   ("wt14", "wt_drizzle"),
   ("wt15", "wt_freezing_drizzle"),
   ("wt16", "wt_rain"),
   ("wt17", "wt_freezing_rain"),
   ("wt18", "wt_snow"),
   ("wt19", "wt_unknown_precip"),
   ("wt21", "wt_ground_fog"),
   ("wt22", "wt_ice_fog")]

/-- `load_varname(line)`: the code at `[17, 21)` lowercased, decoded through
`WEATHER_TYPE_LOOKUP` when present, passed through unchanged otherwise. -/
def load_varname (line : String) : String :=
  let varname := trimmer line 17 21
  match WEATHER_TYPE_LOOKUP.lookup varname with
  | some nm => nm
  | none => varname

/-- The inline scale-by-10 variable list of `daily_number_postprocess`. -/
def scale10_vars : List String :=
  ["prcp", "tmax", "tmin", "awnd", "evap", "mdev",
   "mdpr", "mdtn", "mdtx", "mnpn", "mxpn",
   "tobs", "wesd", "wesf", "wsf1", "wsf2",
   "wsf5", "wsfg", "wsfi", "wsfm"]

/-- `daily_number_postprocess(number, varname)`: sentinel `-9999` becomes missing
(`none` = `np.nan`), scale-by-10 variables are divided by 10, others pass through. -/
def daily_number_postprocess (number : ℚ) (varname : String) : Option ℚ :=
  if number = -9999 then none
  else if varname ∈ scale10_vars then some (number / 10)
  else some number

/-- `calendar.isleap(year)` as used by `monthrange`. -/
def isleap (year : ℤ) : Bool :=
  year % 4 == 0 && (year % 100 != 0 || year % 400 == 0)

/-- `calendar.monthrange(year, month)[-1]`: the day count of the month; `none`
models the `IllegalMonthError` raised for a month outside `1..12`. -/
def daysInMonth? (year month : ℤ) : Option ℕ :=
  if month = 2 then some (if isleap year then 29 else 28)
  else if month = 1 ∨ month = 3 ∨ month = 5 ∨ month = 7 ∨ month = 8 ∨ month = 10 ∨ month = 12
    then some 31
  else if month = 4 ∨ month = 6 ∨ month = 9 ∨ month = 11 then some 30
  else none

/-- `start_idx(day) = 21 + day*8` for the 0-based `day` of `load_days`. -/
def start_idx (day : ℕ) : ℕ := 21 + day * 8

/-- `end_idx(day) = start_idx(day) + 5`. -/
def end_idx (day : ℕ) : ℕ := start_idx day + 5

/-- `load_days(line, varname, year, month)`: one postprocessed value per day of
the month.  Inner `Option ℚ` is value-or-NaN; the outer `Option` is `none` when
`monthrange` or a `float` conversion raises. -/
def load_days (line varname : String) (year month : ℤ) : Option (List (Option ℚ)) :=
  (daysInMonth? year month).bind fun ndays =>
    mapOpt (fun day =>
        (to_float line (start_idx day) (end_idx day)).map fun q =>
          daily_number_postprocess q varname)
      (List.range ndays)

/-- A row of the wide daily table: `[year, month, var] + new_data`. -/
structure DailyRow where
  year : ℤ
  month : ℤ
  varname : String
  days : List (Option ℚ)
deriving DecidableEq, Repr

/-- `update_data(data, line)`: append the parsed row for one daily line. -/
def update_data (data : List DailyRow) (line : String) : Option (List DailyRow) :=
  let var := load_varname line
  (load_year line).bind fun year =>
    (load_month line).bind fun month =>
      (load_days line var year month).map fun days =>
        data ++ [{ year := year, month := month, varname := var, days := days }]

/-- `load_ghcn_daily`: fold `update_data` over the file's lines; `none` means the
load raised and no table was returned. -/
def load_ghcn_daily (lines : List String) : Option (List DailyRow) :=
  foldOpt update_data [] lines

/-- Day column `d` (1-based) of a wide row: slots beyond the row's own month
length were never populated and read as NaN (`none`), as in the padded frame. -/
def dayVal (r : DailyRow) (d : ℕ) : Option ℚ :=
  r.days.getD (d - 1) none

/-- A row of the long timeseries table produced by `exchange_row_column`:
`year`, `month`, `day`, and one `(varname, value)` cell per wide row of the group. -/
structure LongRow where
  year : ℤ
  month : ℤ
  day : ℕ
  vals : List (String × Option ℚ)
deriving DecidableEq, Repr

/-- `exchange_row_column(df)` on one `(year, month)` group: read year/month off the
first row (`.iloc[0]`; `none` if the group is empty), keep exactly the day columns
`1..monthrange(year, month)[-1]`, and transpose so each kept day becomes a row. -/
def exchange_row_column (g : List DailyRow) : Option (List LongRow) :=
  match g with
  | [] => none
  | r :: rest =>
    (daysInMonth? r.year r.month).map fun days =>
      (List.range' 1 days).map fun d =>
        { year := r.year, month := r.month, day := d,
          vals := (r :: rest).map fun row => (row.varname, dayVal row d) }

/-- The spec's description of `trimmer`: slice, strip surrounding whitespace,
lowercase.  Stated for comparison with the source's `trimmer`. -/
def trimmer_spec (string : String) (start_idx end_idx : ℕ) : String :=
  pyLower (pyStrip (strSlice string start_idx end_idx))

/-- A station line of full length (85 content characters plus newline) whose
`wmo_id` span `[80, 85)` is blank while every other field is well formed. -/
def blank_wmo_line : String :=
  "USC00011084" ++ " " ++ " 32.9000" ++ " " ++ " -85.9667" ++ " " ++ " 126.2" ++ " " ++
    "AL" ++ " " ++ "MADISON CITY HALL             " ++ " " ++ "GSN" ++ " " ++ "HCN" ++ " " ++
    "     " ++ "\n"

/-- `mapOpt` aborts with `none` whenever some element raises. -/
theorem mapOpt_eq_none {α β : Type} {f : α → Option β} {l : List α} {x : α}
    (hx : x ∈ l) (hf : f x = none) : mapOpt f l = none := by
  induction l with
  | nil => cases hx
  | cons a as ih =>
    rcases List.mem_cons.mp hx with h | h
    · subst h; simp [mapOpt, hf]
    · cases hfa : f a <;> simp [mapOpt, hfa, ih h]

/-- A successful `mapOpt` yields one output element per input element. -/
theorem mapOpt_length {α β : Type} {f : α → Option β} :
    ∀ {l : List α} {ys : List β}, mapOpt f l = some ys → ys.length = l.length := by
  intro l
  induction l with
  | nil =>
    intro ys h
    simp only [mapOpt, Option.some.injEq] at h
    simp [← h]
  | cons a as ih =>
    intro ys h
    simp only [mapOpt] at h
    cases hfa : f a with
    | none => rw [hfa] at h; simp at h
    | some b =>
      rw [hfa] at h
      simp only [Option.some_bind] at h
      rcases Option.map_eq_some'.mp h with ⟨bs, hbs, hys⟩
      subst hys
      simp [ih hbs]

/-- A field whose end offset is not strictly exceeded by the line length falls
back to the type's default. -/
theorem extract_field_default (t : FType) (line : String) (a b : ℕ)
    (h : line.length ≤ b) : extract_field t line a b = some (FALSE_VALUES t) := by
  rw [extract_field, if_neg (by omega)]

/-- The zipped metadata schema, written out. -/
theorem metaSchema_eq :
    metaSchema = [(FType.str, 0, 11), (FType.float, 12, 20), (FType.float, 21, 30),
      (FType.float, 31, 37), (FType.str, 38, 40), (FType.str, 41, 71),
      (FType.str, 72, 75), (FType.str, 76, 79), (FType.int, 80, 85)] := by
  rfl

/-- A line of length at most 11 yields the all-defaults station record. -/
theorem parse_meta_line_short (line : String) (h : line.length ≤ 11) :
    parse_meta_line line = some [GVal.s "", GVal.f none, GVal.f none, GVal.f none,
      GVal.s "", GVal.s "", GVal.s "", GVal.s "", GVal.i 0] := by
  have e0 := extract_field_default FType.str line 0 11 (by omega)
  have e1 := extract_field_default FType.float line 12 20 (by omega)
  have e2 := extract_field_default FType.float line 21 30 (by omega)
  have e3 := extract_field_default FType.float line 31 37 (by omega)
  have e4 := extract_field_default FType.str line 38 40 (by omega)
  have e5 := extract_field_default FType.str line 41 71 (by omega)
  have e6 := extract_field_default FType.str line 72 75 (by omega)
  have e7 := extract_field_default FType.str line 76 79 (by omega)
  have e8 := extract_field_default FType.int line 80 85 (by omega)
  simp [parse_meta_line, metaSchema_eq, mapOpt, e0, e1, e2, e3, e4, e5, e6, e7, e8,
    FALSE_VALUES]

/-- C1 counterexample: on a line of length exactly 11 — at least the `id` field's
end offset — the extractor still returns the default `""`, not the converted
slice `"usc00011084"`, refuting "whenever the line's length is at least the end
offset, the field's value is obtained by converting the slice". -/
theorem extract_field_at_exact_end_default :
    11 ≤ ("USC00011084" : String).length ∧
    extract_field FType.str "USC00011084" 0 11 = some (FALSE_VALUES FType.str) ∧
    CONVERSIONS FType.str "USC00011084" 0 11 = some (GVal.s "usc00011084") ∧
    FALSE_VALUES FType.str ≠ GVal.s "usc00011084" := by
  decide

/-- C1 (amended): for every line and schema field, the type-specific default is
returned exactly when the line's length is at most (not strictly less than) the
field's end offset; the slice is converted exactly when the length strictly
exceeds the end offset. -/
theorem extract_field_boundary (line : String) (t : FType) (a b : ℕ)
    (hf : (t, a, b) ∈ metaSchema) :
    (line.length ≤ b → extract_field t line a b = some (FALSE_VALUES t)) ∧
    (b < line.length → extract_field t line a b = CONVERSIONS t line a b) := by
  refine ⟨fun h => extract_field_default t line a b h, fun h => ?_⟩
  rw [extract_field, if_pos h]

/-- C1 witness: the amended boundary rule at the `id` field of an 11-character line. -/
theorem extract_field_boundary_witness :
    (("USC00011084" : String).length ≤ 11 →
      extract_field FType.str "USC00011084" 0 11 = some (FALSE_VALUES FType.str)) ∧
    (11 < ("USC00011084" : String).length →
      extract_field FType.str "USC00011084" 0 11 =
        CONVERSIONS FType.str "USC00011084" 0 11) :=
  extract_field_boundary "USC00011084" FType.str 0 11 (by decide)

/-- C3: a parsed day value equal to the sentinel −9999 postprocesses to missing
for every variable name, including scale-by-10 variables. -/
theorem daily_number_postprocess_sentinel (q : ℚ) (v : String) (h : q = -9999) :
    daily_number_postprocess q v = none := by
  subst h
  rw [daily_number_postprocess, if_pos rfl]

/-- C3 witness: the sentinel maps to missing for the scale-by-10 variable `prcp`
(rather than to −999.9). -/
theorem daily_number_postprocess_sentinel_witness :
    daily_number_postprocess (-9999) "prcp" = none :=
  daily_number_postprocess_sentinel (-9999) "prcp" rfl

/-- C4: a parsed day value other than −9999 is divided by 10 exactly for the
variables of the fixed scale-by-10 list and returned unchanged otherwise; raw
125 for `prcp` gives 12.5, raw 1 for a non-scaled variable gives 1. -/
theorem daily_number_postprocess_scaling (q : ℚ) (v : String) (h : q ≠ -9999) :
    daily_number_postprocess q v =
      (if v ∈ scale10_vars then some (q / 10) else some q) ∧
    daily_number_postprocess 125 "prcp" = some (12.5 : ℚ) ∧
    daily_number_postprocess 1 "wt_fog" = some 1 := by
  refine ⟨?_, by norm_num [daily_number_postprocess, scale10_vars],
    by norm_num [daily_number_postprocess, scale10_vars]; decide⟩
  rw [daily_number_postprocess, if_neg h]

/-- C4 witness: the scaling rule applied at raw value 125. -/
theorem daily_number_postprocess_scaling_witness :
    daily_number_postprocess 125 "prcp" =
      (if "prcp" ∈ scale10_vars then some ((125 : ℚ) / 10) else some 125) ∧
    daily_number_postprocess 125 "prcp" = some (12.5 : ℚ) ∧
    daily_number_postprocess 1 "wt_fog" = some 1 :=
  daily_number_postprocess_scaling 125 "prcp" (by norm_num)

/-- C6: variable-name decoding is a pure lookup on the lowercased 4-character
code at `[17, 21)`: mapped codes decode to their table entry, unmapped codes
(such as `tmax` and the unmapped `wt20`) pass through unchanged. -/
theorem load_varname_pure_lookup (line : String) :
    (∀ nm, WEATHER_TYPE_LOOKUP.lookup (trimmer line 17 21) = some nm →
      load_varname line = nm) ∧
    (WEATHER_TYPE_LOOKUP.lookup (trimmer line 17 21) = none →
      load_varname line = trimmer line 17 21) ∧
    load_varname "USC00011084202101WT01" = "wt_fog" ∧
    load_varname "USC00011084202101TMAX" = "tmax" ∧
    load_varname "USC00011084202101WT20" = "wt20" := by
  refine ⟨fun nm h => ?_, fun h => ?_, by decide, by decide, by decide⟩
  · simp [load_varname, h]
  · simp [load_varname, h]

/-- C6 witness: the lookup rule applied to a line carrying code `WT01`. -/
theorem load_varname_pure_lookup_witness :
    load_varname "USC00011084202101WT01" = "wt_fog" :=
  (load_varname_pure_lookup "USC00011084202101WT01").1 "wt_fog" (by decide)

/-- C9 counterexample: `trimmer` lowercases but does not strip whitespace, so it
disagrees with the spec's slice-trim-lowercase description on `"AB "`. -/
theorem trimmer_does_not_trim :
    trimmer "AB " 0 3 = "ab " ∧ trimmer_spec "AB " 0 3 = "ab" ∧
    trimmer "AB " 0 3 ≠ trimmer_spec "AB " 0 3 := by
  decide

/-- C2 counterexample: a daily line of length 21 — shorter than day 1's end
offset 26 — makes the load raise on `float('')` and return nothing, instead of
filling the day with NaN and completing silently. -/
theorem load_ghcn_daily_truncated_line_errors :
    ("USC00011084202102PRCP" : String).length < 21 + (1 - 1) * 8 + 5 ∧
    load_ghcn_daily ["USC00011084202102PRCP"] = none := by
  decide

/-- C2 (amended): `load_days` performs no length check; on a line too short to
reach the first day field the empty slice fails float conversion, so the value
is an uncaught error — not a NaN fallback — for any month with at least one day. -/
theorem load_days_truncated_none (line varname : String) (year month : ℤ) (nd : ℕ)
    (hnd : daysInMonth? year month = some nd) (h1 : 1 ≤ nd)
    (hlen : line.length ≤ 21) :
    load_days line varname year month = none := by
  have hdrop : line.toList.drop 21 = [] :=
    List.drop_eq_nil_of_le (show line.toList.length ≤ 21 from hlen)
  have hslice : strSlice line 21 26 = "" := by
    show String.mk ((line.toList.drop 21).take (26 - 21)) = ""
    rw [hdrop]
    rfl
  have hf0 : to_float line (start_idx 0) (end_idx 0) = none := by
    show parseFloat? (pyLower (strSlice line 21 26)) = none
    rw [hslice]
    decide
  have h0 : (0 : ℕ) ∈ List.range nd := List.mem_range.mpr (by omega)
  have hmap : mapOpt (fun day =>
      (to_float line (start_idx day) (end_idx day)).map fun q =>
        daily_number_postprocess q varname) (List.range nd) = none :=
    mapOpt_eq_none h0 (by rw [hf0]; rfl)
  rw [load_days, hnd]
  simpa using hmap

/-- C2 witness: the amended rule at the concrete truncated line. -/
theorem load_days_truncated_none_witness :
    load_days "USC00011084202102PRCP" "prcp" 2021 2 = none :=
  load_days_truncated_none "USC00011084202102PRCP" "prcp" 2021 2 28 (by decide)
    (by decide) (by decide)

/-- C5: on any `(year, month)` group, `exchange_row_column` selects exactly the
day columns `1..monthrange(year, month)` — 28 for 2021‑02, 29 for 2020‑02 — and
every produced row's day lies in that range, so day slots beyond the month's
true length are never included. -/
theorem exchange_row_column_selects_calendar_days (r : DailyRow) (rest : List DailyRow)
    (nd : ℕ) (hnd : daysInMonth? r.year r.month = some nd) :
    (exchange_row_column (r :: rest)).map (fun rows => rows.map LongRow.day) =
      some (List.range' 1 nd) ∧
    (∀ rows, exchange_row_column (r :: rest) = some rows →
      ∀ lr ∈ rows, 1 ≤ lr.day ∧ lr.day ≤ nd) ∧
    daysInMonth? 2021 2 = some 28 ∧ daysInMonth? 2020 2 = some 29 := by
  have hx : exchange_row_column (r :: rest) =
      some ((List.range' 1 nd).map fun d =>
        { year := r.year, month := r.month, day := d,
          vals := (r :: rest).map fun row => (row.varname, dayVal row d) }) := by
    simp [exchange_row_column, hnd]
  refine ⟨?_, ?_, by decide, by decide⟩
  · rw [hx, Option.map_some']
    refine congrArg some ?_
    rw [List.map_map]
    exact List.map_id _
  · intro rows h lr hlr
    rw [hx] at h
    rcases Option.some.inj h with rfl
    rcases List.mem_map.mp hlr with ⟨d, hd, rfl⟩
    rw [List.mem_range'_1] at hd
    show 1 ≤ d ∧ d ≤ nd
    omega

/-- C5 witness: day selection on a concrete single-row February 2021 group. -/
theorem exchange_row_column_selects_calendar_days_witness :
    (exchange_row_column [(⟨2021, 2, "prcp", []⟩ : DailyRow)]).map
        (fun rows => rows.map LongRow.day) = some (List.range' 1 28) ∧
    (∀ rows, exchange_row_column [(⟨2021, 2, "prcp", []⟩ : DailyRow)] = some rows →
      ∀ lr ∈ rows, 1 ≤ lr.day ∧ lr.day ≤ 28) ∧
    daysInMonth? 2021 2 = some 28 ∧ daysInMonth? 2020 2 = some 29 :=
  exchange_row_column_selects_calendar_days ⟨2021, 2, "prcp", []⟩ [] 28 (by decide)

/-- C7: whenever `load_ghcn_meta` returns, the table has exactly the nine columns
`id, lat, lon, elev, state, name, gsn_flag, hcn_flag, wmo_id` in that order and
one record per input line; moreover every line of length at most 11 (empty lines
included) yields the all-defaults record, so no line is skipped. -/
theorem load_ghcn_meta_shape (lines : List String) (tbl : List String × List (List GVal))
    (h : load_ghcn_meta lines = some tbl) :
    tbl.1 = metaNames ∧ metaNames.length = 9 ∧ tbl.2.length = lines.length ∧
    (∀ line : String, line.length ≤ 11 →
      parse_meta_line line = some [GVal.s "", GVal.f none, GVal.f none, GVal.f none,
        GVal.s "", GVal.s "", GVal.s "", GVal.s "", GVal.i 0]) := by
  rw [load_ghcn_meta] at h
  rcases Option.map_eq_some'.mp h with ⟨rows, hrows, htbl⟩
  subst htbl
  exact ⟨rfl, rfl, mapOpt_length hrows, parse_meta_line_short⟩

/-- C7 witness: a file of an empty line and a 3-character line loads to two
all-default records under the fixed header. -/
theorem load_ghcn_meta_shape_witness :
    ((metaNames,
      [[GVal.s "", GVal.f none, GVal.f none, GVal.f none, GVal.s "", GVal.s "",
        GVal.s "", GVal.s "", GVal.i 0],
       [GVal.s "", GVal.f none, GVal.f none, GVal.f none, GVal.s "", GVal.s "",
        GVal.s "", GVal.s "", GVal.i 0]]) : List String × List (List GVal)).1 = metaNames ∧
    metaNames.length = 9 ∧
    ((metaNames,
      [[GVal.s "", GVal.f none, GVal.f none, GVal.f none, GVal.s "", GVal.s "",
        GVal.s "", GVal.s "", GVal.i 0],
       [GVal.s "", GVal.f none, GVal.f none, GVal.f none, GVal.s "", GVal.s "",
        GVal.s "", GVal.s "", GVal.i 0]]) : List String × List (List GVal)).2.length =
      (["", "ABC"] : List String).length ∧
    (∀ line : String, line.length ≤ 11 →
      parse_meta_line line = some [GVal.s "", GVal.f none, GVal.f none, GVal.f none,
        GVal.s "", GVal.s "", GVal.s "", GVal.s "", GVal.i 0]) :=
  load_ghcn_meta_shape ["", "ABC"] _ (by decide)

/-- C8: a line whose present numeric field (its end offset strictly inside the
line) fails conversion makes the whole load return nothing: the error is not
caught and no partial table is produced. -/
theorem load_ghcn_meta_malformed_aborts (lines : List String) (l : String)
    (t : FType) (a b : ℕ) (hl : l ∈ lines) (hf : (t, a, b) ∈ metaSchema)
    (hpresent : b < l.length) (hconv : CONVERSIONS t l a b = none) :
    load_ghcn_meta lines = none := by
  have hx : extract_field t l a b = none := by
    rw [extract_field, if_pos hpresent]; exact hconv
  have hline : parse_meta_line l = none := mapOpt_eq_none hf hx
  rw [load_ghcn_meta, mapOpt_eq_none hl hline]
  rfl

/-- C8 witness: a line with non-numeric text in the present `lat` span aborts the load. -/
theorem load_ghcn_meta_malformed_aborts_witness :
    load_ghcn_meta ["USC00011084 xxxxxxxx "] = none :=
  load_ghcn_meta_malformed_aborts ["USC00011084 xxxxxxxx "] "USC00011084 xxxxxxxx "
    FType.float 12 20 (by decide) (by decide) (by decide) (by decide)

/-- C9 (amended): the shared routine used by all three field types slices
`[start, end)` and lowercases, preserving whitespace (no trimming); in
particular a present string field of the metadata loader holds exactly the
lowercased slice. -/
theorem trimmer_slice_lowercase :
    (∀ (s : String) (a b : ℕ), trimmer s a b = pyLower (strSlice s a b)) ∧
    (∀ (s : String) (a b : ℕ), to_float s a b = parseFloat? (trimmer s a b)) ∧
    (∀ (s : String) (a b : ℕ), to_int s a b = parseInt? (trimmer s a b)) ∧
    trimmer "AB " 0 3 = "ab " ∧
    (∀ (line : String) (vals : List GVal), parse_meta_line line = some vals →
      11 < line.length → vals.head? = some (GVal.s (trimmer line 0 11))) := by
  refine ⟨fun s a b => rfl, fun s a b => rfl, fun s a b => rfl, by decide, ?_⟩
  intro line vals h hlen
  rw [parse_meta_line, metaSchema_eq] at h
  simp only [mapOpt] at h
  rw [show extract_field FType.str line 0 11 = some (GVal.s (trimmer line 0 11)) from by
    rw [extract_field, if_pos hlen]; rfl] at h
  simp only [Option.some_bind] at h
  rcases Option.map_eq_some'.mp h with ⟨tail, htail, hv⟩
  subst hv
  rfl

/-- C9 witness: the id field of a 12-character line is the lowercased slice. -/
theorem trimmer_slice_lowercase_witness :
    ([GVal.s "usc00011084", GVal.f none, GVal.f none, GVal.f none, GVal.s "",
      GVal.s "", GVal.s "", GVal.s "", GVal.i 0] : List GVal).head? =
      some (GVal.s (trimmer "USC00011084X" 0 11)) :=
  trimmer_slice_lowercase.2.2.2.2 "USC00011084X"
    [GVal.s "usc00011084", GVal.f none, GVal.f none, GVal.f none, GVal.s "",
      GVal.s "", GVal.s "", GVal.s "", GVal.i 0] (by decide) (by decide)

/-- C10: a full-length station line whose `wmo_id` span `[80, 85)` is blank while
all other fields are well formed makes the load raise: the blank present integer
field is malformed, not missing, so neither the fallback 0 nor any record is
returned. -/
theorem load_ghcn_meta_blank_wmo_id_errors :
    85 < blank_wmo_line.length ∧
    strSlice blank_wmo_line 80 85 = "     " ∧
    to_int blank_wmo_line 80 85 = none ∧
    extract_field FType.int blank_wmo_line 80 85 = none ∧
    extract_field FType.int blank_wmo_line 80 85 ≠ some (GVal.i 0) ∧
    (mapOpt (fun e => extract_field e.1 blank_wmo_line e.2.1 e.2.2)
      (metaSchema.take 8)).isSome = true ∧
    load_ghcn_meta [blank_wmo_line] = none := by
  decide
